import Mathlib

/-!
Verification of the reflection-geometry core of the repository
(src/src/util/optics-helpers.ts and the canvas helper module).

Embedding conventions:
* JavaScript numbers (IEEE doubles) are modelled as real numbers `ℝ`,
  with exact arithmetic; `Math.cos`, `Math.sin`, `Math.sqrt`, `Math.atan2`
  become `Real.cos`, `Real.sin`, `Real.sqrt` and `Complex.arg`.
* JavaScript object identity (`===` / `!==` on mirror objects) is modelled
  by a numeric `id` field carried by every mirror, compared with `=` on `ℕ`;
  a stored mirror reference (`sourceMirror` on a mirror) is modelled as the
  id of the referenced mirror.  This follows the design notes of the spec,
  which call for reference comparison by stable identity, never by deep
  structural equality.  All statements about scenes with several mirrors
  assume (or instantiate) pairwise distinct ids, matching the fact that
  distinct JavaScript allocations are never `===`.
* The JavaScript `%` operator (sign-of-dividend remainder) is modelled by
  `jsRem` below; `Math.round` (round half toward positive infinity) agrees
  with Mathlib `round`.
* `null` results are modelled by `Option`; the defensive `if (!p) return`
  guards on always-present typed arguments are dropped, as the TypeScript
  types already exclude them.
-/

namespace Reflections

noncomputable section

open Real

/-- A plain 2D coordinate, `{x, y}` in the source. -/
@[ext]
structure Point where
  x : ℝ
  y : ℝ

/-- The `MirrorProps` record of the source.  `id` models JavaScript object
identity (see the header comment); `sourceMirror` stores the id of the
mirror that generated a virtual mirror. -/
structure MirrorProps where
  id : ℕ
  position : Point
  width : ℝ
  height : ℝ
  rotation : ℝ
  isVirtual : Bool := false
  order : Option ℕ := none
  sourceMirror : Option ℕ := none

/-- The `ObjectProps` record of the source. -/
structure ObjectProps where
  position : Point
  size : ℝ
  direction : ℝ

/-- The `ObserverProps` record of the source; the `color` field is a pure
rendering concern and carries no geometric information, so it is dropped. -/
structure ObserverProps where
  position : Point
  size : ℝ

/-- The `VirtualImage` record of the source: an `ObjectProps` together with
a reflection order and the mirror that most recently produced the image.
The stored mirror is kept in full (the ray reconstruction reads its
endpoints), with its `id` field playing the role of the reference. -/
structure VirtualImage where
  position : Point
  size : ℝ
  direction : ℝ
  order : ℕ
  sourceMirror : MirrorProps

/-- Truncation toward zero, the rounding used by the JavaScript `%`
operator on its implicit division. -/
def jsTrunc (x : ℝ) : ℤ :=
  if 0 ≤ x then ⌊x⌋ else -⌊-x⌋

/-- The JavaScript remainder operator `a % b`: the result has the sign of
the dividend `a`.  (Only ever used with `b = 360` in the source.) -/
def jsRem (a b : ℝ) : ℝ :=
  a - b * jsTrunc (a / b)

/-- `Math.atan2 y x`: the angle of the point `(x, y)`, in `(-π, π]`.
`Complex.arg` has exactly this quadrant behaviour (and `arg 0 = 0`,
matching `atan2(0, 0) = 0`). -/
def atan2 (y x : ℝ) : ℝ :=
  Complex.arg ⟨x, y⟩

/-- `getMirrorEndpoints`: the two endpoints of a mirror segment, from its
center, height and rotation (degrees). -/
def getMirrorEndpoints (mirror : MirrorProps) : Point × Point :=
  let radians := mirror.rotation * π / 180
  let halfHeight := mirror.height / 2
  (⟨mirror.position.x + Real.sin radians * halfHeight,
    mirror.position.y - Real.cos radians * halfHeight⟩,
   ⟨mirror.position.x - Real.sin radians * halfHeight,
    mirror.position.y + Real.cos radians * halfHeight⟩)

/-- `getMirrorNormal`: unit normal `(cos θ, sin θ)` of the mirror plane. -/
def getMirrorNormal (mirror : MirrorProps) : Point :=
  let radians := mirror.rotation * π / 180
  ⟨Real.cos radians, Real.sin radians⟩

/-- `dotProduct` of the source. -/
def dotProduct (v1 v2 : Point) : ℝ :=
  v1.x * v2.x + v1.y * v2.y

/-- `subtractVectors` of the source. -/
def subtractVectors (v1 v2 : Point) : Point :=
  ⟨v1.x - v2.x, v1.y - v2.y⟩

/-- `addVectors` of the source. -/
def addVectors (v1 v2 : Point) : Point :=
  ⟨v1.x + v2.x, v1.y + v2.y⟩

/-- `multiplyVector` of the source (the `!v` guard is unreachable for the
typed argument and is dropped). -/
def multiplyVector (v : Point) (scalar : ℝ) : Point :=
  ⟨v.x * scalar, v.y * scalar⟩

/-- The denominator of the parametric segment-intersection solve in
`lineIntersection`. -/
def interDenom (p1 p2 p3 p4 : Point) : ℝ :=
  (p4.y - p3.y) * (p2.x - p1.x) - (p4.x - p3.x) * (p2.y - p1.y)

/-- The parameter `ua` of `lineIntersection` (position along `p1p2`). -/
def interUa (p1 p2 p3 p4 : Point) : ℝ :=
  ((p4.x - p3.x) * (p1.y - p3.y) - (p4.y - p3.y) * (p1.x - p3.x)) /
    interDenom p1 p2 p3 p4

/-- The parameter `ub` of `lineIntersection` (position along `p3p4`). -/
def interUb (p1 p2 p3 p4 : Point) : ℝ :=
  ((p2.x - p1.x) * (p1.y - p3.y) - (p2.y - p1.y) * (p1.x - p3.x)) /
    interDenom p1 p2 p3 p4

/-- `lineIntersection`: parametric intersection of segments `p1p2` and
`p3p4`, `none` when the denominator is below the `1e-4` tolerance or a
parameter leaves `[0, 1]`. -/
def lineIntersection (p1 p2 p3 p4 : Point) : Option Point :=
  let denom := interDenom p1 p2 p3 p4
  if |denom| < 0.0001 then none
  else
    let ua := interUa p1 p2 p3 p4
    let ub := interUb p1 p2 p3 p4
    if ua < 0 ∨ ua > 1 ∨ ub < 0 ∨ ub > 1 then none
    else some ⟨p1.x + ua * (p2.x - p1.x), p1.y + ua * (p2.y - p1.y)⟩

/-- `isDirectlyVisible`: true unless the segment `from → to` intersects
some mirror segment of the list. -/
def isDirectlyVisible (fromP toP : Point) (mirrors : List MirrorProps) : Bool :=
  mirrors.all fun mirror =>
    (lineIntersection fromP toP (getMirrorEndpoints mirror).1
      (getMirrorEndpoints mirror).2).isNone

/-- The normalized mirror angle computed inside
`calculateVirtualImagePosition`: the rotation, converted to radians and
back to degrees, forced into `[0, 360)` by `((x % 360) + 360) % 360`. -/
def normalizedMirrorAngle (mirror : MirrorProps) : ℝ :=
  jsRem (jsRem (mirror.rotation * π / 180 * 180 / π) 360 + 360) 360

/-- `calculateVirtualImagePosition`: reflect the object position across the
mirror plane and fold the facing direction, producing a first-order
virtual image. -/
def calculateVirtualImagePosition (object : ObjectProps)
    (mirror : MirrorProps) : VirtualImage :=
  let normal := getMirrorNormal mirror
  let mirrorToObj := subtractVectors object.position mirror.position
  let dist := dotProduct mirrorToObj normal
  { position := ⟨object.position.x - 2 * dist * normal.x,
                 object.position.y - 2 * dist * normal.y⟩
    direction := jsRem (2 * normalizedMirrorAngle mirror - object.direction + 180) 360
    size := object.size
    order := 1
    sourceMirror := mirror }

/-- `areParallel`: mirror normals parallel up to the `1e-3` tolerance. -/
def areParallel (mirror1 mirror2 : MirrorProps) : Bool :=
  let normal1 := getMirrorNormal mirror1
  let normal2 := getMirrorNormal mirror2
  decide (|normal1.x * normal2.x + normal1.y * normal2.y| > 1 - 0.001)

/-- The record pushed onto the `virtualObjects` work list inside
`calculateParallelMirrorImages`. -/
structure VirtObj where
  position : Point
  direction : ℝ
  size : ℝ
  sourceObject : ObjectProps
  sourceMirror : Option MirrorProps
  reflectionOrder : ℕ

/-- The mutable state of `calculateParallelMirrorImages`: the dedup map
keys (position rounded to the nearest integer, plus the depth), the
accumulated result images, and the seeds collected for the next depth. -/
structure PMState where
  keys : List (ℤ × ℤ × ℕ)
  results : List VirtualImage
  nextObjects : List VirtObj

/-- The `mirror === vObj.sourceMirror` identity test of the source
(`null` compares unequal to every mirror). -/
def sameMirrorRef (src : Option MirrorProps) (mirror : MirrorProps) : Bool :=
  match src with
  | none => false
  | some s => s.id == mirror.id

/-- One inner-loop body of `calculateParallelMirrorImages`: process a
single (virtual object, mirror) pair at the given depth. -/
def pmStep (reflection : ℕ) (st : PMState) (vObj : VirtObj)
    (mirror : MirrorProps) : PMState :=
  if sameMirrorRef vObj.sourceMirror mirror then st
  else
    let virtual := calculateVirtualImagePosition
      { vObj.sourceObject with
          position := vObj.position, direction := vObj.direction } mirror
    let key : ℤ × ℤ × ℕ :=
      (round virtual.position.x, round virtual.position.y, reflection)
    if key ∈ st.keys then st
    else
      { keys := st.keys ++ [key]
        results := st.results ++
          [{ virtual with order := reflection, sourceMirror := mirror }]
        nextObjects := st.nextObjects ++
          [{ position := virtual.position
             direction := virtual.direction
             size := virtual.size
             sourceObject := vObj.sourceObject
             sourceMirror := some mirror
             reflectionOrder := reflection }] }

/-- One depth iteration of `calculateParallelMirrorImages`: every virtual
object of the previous depth against every mirror of the group, in source
iteration order. -/
def pmDepth (mirrors : List MirrorProps) (reflection : ℕ) (st : PMState)
    (vObjs : List VirtObj) : PMState :=
  vObjs.foldl
    (fun st1 vObj => mirrors.foldl (fun st2 m => pmStep reflection st2 vObj m) st1)
    st

/-- The `for (reflection = 1; reflection <= maxReflections; ...)` loop of
`calculateParallelMirrorImages`; the first argument of the recursion is the
number of remaining iterations. -/
def pmLoop (mirrors : List MirrorProps) :
    ℕ → ℕ → List (ℤ × ℤ × ℕ) → List VirtualImage → List VirtObj →
      List VirtualImage
  | 0, _, _, results, _ => results
  | fuel + 1, reflection, keys, results, vObjs =>
    let st := pmDepth mirrors reflection ⟨keys, results, []⟩ vObjs
    pmLoop mirrors fuel (reflection + 1) st.keys st.results st.nextObjects

/-- `calculateParallelMirrorImages`: breadth-first enumeration of virtual
images over a group of (parallel) mirrors, deduplicated per depth by
rounded position. -/
def calculateParallelMirrorImages (object : ObjectProps)
    (mirrors : List MirrorProps) (maxReflections : ℕ := 3) :
    List VirtualImage :=
  if mirrors.length < 2 then []
  else
    let seed : VirtObj :=
      { position := object.position
        direction := object.direction
        size := object.size
        sourceObject := object
        sourceMirror := none
        reflectionOrder := 0 }
    (pmLoop mirrors maxReflections 1 [] [] [seed]).map fun result =>
      { position := result.position
        direction := result.direction
        size := object.size
        order := result.order
        sourceMirror := result.sourceMirror }

/-- The `group.includes(mirror)` test of `findParallelMirrorGroups`
(JavaScript `includes` on objects compares references). -/
def mirrorMem (group : List MirrorProps) (m : MirrorProps) : Bool :=
  group.any fun x => x.id == m.id

/-- The two sequential `if (!group.includes(x)) group.push(x)` mutations
performed on the first matching group of `findParallelMirrorGroups`. -/
def absorbPair (g : List MirrorProps) (a b : MirrorProps) :
    List MirrorProps :=
  let g1 := if mirrorMem g a then g else g ++ [a]
  if mirrorMem g1 b then g1 else g1 ++ [b]

/-- The merge step of `findParallelMirrorGroups` for one parallel pair:
the first group already containing either mirror absorbs both (appending
the missing ones at the end); if no group matches, a fresh two-mirror
group is appended. -/
def addPairToGroups :
    List (List MirrorProps) → MirrorProps → MirrorProps →
      List (List MirrorProps)
  | [], a, b => [[a, b]]
  | g :: gs, a, b =>
    if mirrorMem g a || mirrorMem g b then absorbPair g a b :: gs
    else g :: addPairToGroups gs a b

/-- All index pairs `(i, j)` with `i < j` of the double loop of
`findParallelMirrorGroups`, in source iteration order. -/
def allPairs : List MirrorProps → List (MirrorProps × MirrorProps)
  | [] => []
  | m :: ms => (ms.map fun m2 => (m, m2)) ++ allPairs ms

/-- `findParallelMirrorGroups`: single-pass first-match merging of
parallel mirror pairs into groups. -/
def findParallelMirrorGroups (mirrors : List MirrorProps) :
    List (List MirrorProps) :=
  (allPairs mirrors).foldl
    (fun groups p =>
      if areParallel p.1 p.2 then addPairToGroups groups p.1 p.2 else groups)
    []

/-- `calculateVirtualMirror`: reflect both endpoints of `sourceMirror`
across the plane of `reflectingMirror` and rebuild a mirror record from
the reflected endpoints.  The fresh record gets `id := 0`: a freshly
allocated virtual mirror is never compared by reference in the embedded
code, only its stored `sourceMirror` id is. -/
def calculateVirtualMirror (sourceMirror reflectingMirror : MirrorProps) :
    MirrorProps :=
  let se := getMirrorEndpoints sourceMirror
  let normal := getMirrorNormal reflectingMirror
  let distStart := dotProduct (subtractVectors se.1 reflectingMirror.position) normal
  let virtualStart : Point :=
    ⟨se.1.x - 2 * distStart * normal.x, se.1.y - 2 * distStart * normal.y⟩
  let distEnd := dotProduct (subtractVectors se.2 reflectingMirror.position) normal
  let virtualEnd : Point :=
    ⟨se.2.x - 2 * distEnd * normal.x, se.2.y - 2 * distEnd * normal.y⟩
  let virtualCenter : Point :=
    ⟨(virtualStart.x + virtualEnd.x) / 2, (virtualStart.y + virtualEnd.y) / 2⟩
  let virtualHeight :=
    Real.sqrt ((virtualEnd.x - virtualStart.x) ^ 2 + (virtualEnd.y - virtualStart.y) ^ 2)
  let virtualRotation :=
    atan2 (virtualEnd.x - virtualStart.x) (-(virtualEnd.y - virtualStart.y)) * 180 / π
  { id := 0
    position := virtualCenter
    width := sourceMirror.width
    height := virtualHeight
    rotation := virtualRotation
    isVirtual := true
    order := some 1
    sourceMirror := some reflectingMirror.id }

/-- The `mirror.isVirtual = true; mirror.order = k` field assignments done
by `calculateVirtualMirrors` on each freshly built virtual mirror. -/
def setVirtualOrder (m : MirrorProps) (k : ℕ) : MirrorProps :=
  { m with isVirtual := true, order := some k }

/-- The `firstOrderVirtualMirrors` array of `calculateVirtualMirrors`:
for every ordered index pair `(i, j)` with `i ≠ j` (in loop order),
mirror `i` reflected in mirror `j`, tagged virtual of order 1. -/
def firstOrderVirtualMirrors (mirrors : List MirrorProps) :
    List MirrorProps :=
  mirrors.enum.flatMap fun p =>
    mirrors.enum.filterMap fun q =>
      if p.1 ≠ q.1 then
        some (setVirtualOrder (calculateVirtualMirror p.2 q.2) 1)
      else none

/-- The second loop of `calculateVirtualMirrors`: every first-order
virtual mirror reflected in every real mirror other than its creator,
tagged virtual of order 2. -/
def secondOrderVirtualMirrors (mirrors : List MirrorProps) :
    List MirrorProps :=
  (firstOrderVirtualMirrors mirrors).flatMap fun v =>
    mirrors.filterMap fun m =>
      if v.sourceMirror ≠ some m.id then
        some (setVirtualOrder (calculateVirtualMirror v m) 2)
      else none

/-- `calculateVirtualMirrors`: all first-order virtual mirrors (every
ordered index pair `i ≠ j`), followed by all second-order virtual mirrors
(every first-order virtual mirror against every real mirror other than its
creator). -/
def calculateVirtualMirrors (mirrors : List MirrorProps) :
    List MirrorProps :=
  if mirrors.length ≤ 1 then []
  else firstOrderVirtualMirrors mirrors ++ secondOrderVirtualMirrors mirrors

/-- `isImageVisible` (canvas helper module): some observer lies on the
side of the source mirror opposite to the virtual image, with the straight
line from the observer to the image unobstructed by every other mirror. -/
def isImageVisible (observers : List ObserverProps)
    (mirrors : List MirrorProps) (virtualPos : Point)
    (mirror : MirrorProps) : Bool :=
  observers.any fun observer =>
    let mirrorNormal := getMirrorNormal mirror
    let observerSide :=
      dotProduct (subtractVectors observer.position mirror.position) mirrorNormal
    let virtualSide :=
      dotProduct (subtractVectors virtualPos mirror.position) mirrorNormal
    decide (observerSide * virtualSide < 0) &&
      isDirectlyVisible observer.position virtualPos
        (mirrors.filter fun m => m.id != mirror.id)

/-- One segment handed to the renderer by `drawPath` inside
`drawLightRay`: start point, end point, and the dashed flag. -/
structure Segment where
  segStart : Point
  segEnd : Point
  dashed : Bool

/-- The backward chain-walking `while (currentImage.order > 1)` loop of
`drawLightRay`, returning the segments it draws in drawing order.  Each
iteration either breaks (no previous-order image with a different source
mirror, or no intersection with its mirror) or moves to an image whose
order is exactly one less, so the initial `order` bounds the iteration
count; the first argument makes that bound explicit as recursion fuel. -/
def rayLoop (object : ObjectProps) (images : List VirtualImage) :
    ℕ → Point → VirtualImage → List Segment
  | 0, _, _ => []
  | fuel + 1, currentIntersection, currentImage =>
    if 1 < currentImage.order then
      match images.find? (fun img =>
          img.order == currentImage.order - 1 &&
            img.sourceMirror.id != currentImage.sourceMirror.id) with
      | none => []
      | some prevImage =>
        match lineIntersection currentIntersection prevImage.position
            (getMirrorEndpoints prevImage.sourceMirror).1
            (getMirrorEndpoints prevImage.sourceMirror).2 with
        | none => []
        | some prevIntersection =>
          { segStart := prevIntersection, segEnd := currentIntersection,
            dashed := false } ::
            ((if prevImage.order == 1 then
                [{ segStart := object.position, segEnd := prevIntersection,
                   dashed := false }]
              else []) ++
              rayLoop object images fuel prevIntersection prevImage)
    else []

/-- `drawLightRay`: the full list of path segments drawn for a virtual
image, in drawing order.  The `try/catch` of the source wraps code that is
total in this model, so the `catch` branch is unreachable. -/
def drawLightRay (virtualImage : VirtualImage) (object : ObjectProps)
    (observer : ObserverProps) (mirror : MirrorProps)
    (parallelImage : List VirtualImage) : List Segment :=
  match lineIntersection virtualImage.position observer.position
      (getMirrorEndpoints mirror).1 (getMirrorEndpoints mirror).2 with
  | none => []
  | some mirrorIntersection =>
    { segStart := mirrorIntersection, segEnd := observer.position,
      dashed := false } ::
      { segStart := mirrorIntersection, segEnd := virtualImage.position,
        dashed := true } ::
      (if virtualImage.order == 1 then
        [{ segStart := object.position, segEnd := mirrorIntersection,
           dashed := false }]
      else
        rayLoop object parallelImage virtualImage.order mirrorIntersection
          virtualImage)

/-! ### Helper lemmas about the JavaScript remainder -/

theorem jsTrunc_zero : jsTrunc 0 = 0 := by
  simp [jsTrunc]

theorem jsTrunc_neg (x : ℝ) : jsTrunc (-x) = -jsTrunc x := by
  rcases lt_trichotomy x 0 with hx | hx | hx
  · have h1 : ¬0 ≤ x := not_le.mpr hx
    have h2 : 0 ≤ -x := by linarith
    simp [jsTrunc, h1, h2]
  · simp [hx, jsTrunc]
  · have h1 : 0 ≤ x := le_of_lt hx
    have h2 : ¬0 ≤ -x := by simp; linarith
    simp [jsTrunc, h1, h2]

theorem jsRem_nonneg_lt {a b : ℝ} (ha : 0 ≤ a) (hb : 0 < b) :
    0 ≤ jsRem a b ∧ jsRem a b < b := by
  have hab : 0 ≤ a / b := div_nonneg ha hb.le
  have ht : jsTrunc (a / b) = ⌊a / b⌋ := by simp [jsTrunc, hab]
  have hfr : jsRem a b = b * Int.fract (a / b) := by
    simp only [jsRem, ht, Int.fract]
    field_simp
  constructor
  · rw [hfr]
    exact mul_nonneg hb.le (Int.fract_nonneg _)
  · rw [hfr]
    calc b * Int.fract (a / b) < b * 1 :=
          (mul_lt_mul_left hb).mpr (Int.fract_lt_one _)
    _ = b := mul_one b

theorem jsRem_neg_eq (a b : ℝ) : jsRem (-a) b = -jsRem a b := by
  have h : -a / b = -(a / b) := by ring
  simp [jsRem, h, jsTrunc_neg]
  ring

theorem jsRem_bounds (a : ℝ) {b : ℝ} (hb : 0 < b) :
    -b < jsRem a b ∧ jsRem a b < b := by
  rcases le_or_lt 0 a with ha | ha
  · obtain ⟨h1, h2⟩ := jsRem_nonneg_lt ha hb
    exact ⟨by linarith, h2⟩
  · have h : jsRem a b = -jsRem (-a) b := by
      rw [← jsRem_neg_eq, neg_neg]
    obtain ⟨h1, h2⟩ := jsRem_nonneg_lt (by linarith : (0:ℝ) ≤ -a) hb
    rw [h]
    constructor <;> linarith

theorem normalizedMirrorAngle_mem (m : MirrorProps) :
    0 ≤ normalizedMirrorAngle m ∧ normalizedMirrorAngle m < 360 := by
  unfold normalizedMirrorAngle
  have h360 : (0:ℝ) < 360 := by norm_num
  obtain ⟨hlo, hhi⟩ := jsRem_bounds (jsRem (m.rotation * π / 180 * 180 / π) 360 + 360) h360
  obtain ⟨hlo2, _⟩ := jsRem_bounds (m.rotation * π / 180 * 180 / π) h360
  obtain ⟨hn, _⟩ := jsRem_nonneg_lt
    (by linarith : (0:ℝ) ≤ jsRem (m.rotation * π / 180 * 180 / π) 360 + 360) h360
  exact ⟨hn, hhi⟩

/-! ### C4: reflection across a mirror plane is an involution on positions -/

/-- C4: for every object and mirror, reflecting the object position across
the mirror plane and then reflecting the resulting virtual image position
across the same mirror returns the original position
(`calculateVirtualImagePosition` applied twice is the identity on
positions). -/
theorem calculateVirtualImagePosition_involution (o : ObjectProps)
    (m : MirrorProps) :
    (calculateVirtualImagePosition
      { o with position := (calculateVirtualImagePosition o m).position }
      m).position = o.position := by
  have h := Real.cos_sq_add_sin_sq (m.rotation * π / 180)
  simp only [calculateVirtualImagePosition, getMirrorNormal, subtractVectors,
    dotProduct]
  set c := Real.cos (m.rotation * π / 180) with hc
  set s := Real.sin (m.rotation * π / 180) with hs
  ext
  · show o.position.x - 2 * _ * c - 2 * _ * c = o.position.x
    linear_combination
      (4 * ((o.position.x - m.position.x) * c + (o.position.y - m.position.y) * s) * c) * h
  · show o.position.y - 2 * _ * s - 2 * _ * s = o.position.y
    linear_combination
      (4 * ((o.position.x - m.position.x) * c + (o.position.y - m.position.y) * s) * s) * h

/-! ### C5: the fields of the returned virtual image -/

/-- C5 (amended): the virtual image returned by
`calculateVirtualImagePosition` has direction equal to
`(2 * normalizedMirrorAngle - direction + 180)` under the JavaScript
remainder by 360 — which has the sign of its dividend and therefore lies in
`(-360, 360)`, not necessarily in `[0, 360)` — while the normalized mirror
angle does lie in `[0, 360)`; the image has `order = 1`, the object size,
and the given mirror as its source. -/
theorem calculateVirtualImagePosition_fields (o : ObjectProps)
    (m : MirrorProps) :
    (calculateVirtualImagePosition o m).direction =
        jsRem (2 * normalizedMirrorAngle m - o.direction + 180) 360 ∧
      -360 < (calculateVirtualImagePosition o m).direction ∧
      (calculateVirtualImagePosition o m).direction < 360 ∧
      0 ≤ normalizedMirrorAngle m ∧ normalizedMirrorAngle m < 360 ∧
      (calculateVirtualImagePosition o m).order = 1 ∧
      (calculateVirtualImagePosition o m).size = o.size ∧
      (calculateVirtualImagePosition o m).sourceMirror = m := by
  obtain ⟨h1, h2⟩ :=
    jsRem_bounds (2 * normalizedMirrorAngle m - o.direction + 180)
      (by norm_num : (0:ℝ) < 360)
  obtain ⟨h3, h4⟩ := normalizedMirrorAngle_mem m
  refine ⟨rfl, ?_, ?_, h3, h4, rfl, rfl, rfl⟩
  · simpa [calculateVirtualImagePosition] using h1
  · simpa [calculateVirtualImagePosition] using h2

/-- C5 (counterexample): for the object with facing direction 181 and a
mirror with rotation 0, the returned direction is `-1`: it is negative, so
it does not lie in `[0, 360)`, and it differs from the mathematical
`(2 * 0 - 181 + 180) mod 360 = 359` asserted by the claim. -/
theorem calculateVirtualImagePosition_direction_counterexample :
    (calculateVirtualImagePosition ⟨⟨0, 0⟩, 10, 181⟩
        { id := 0, position := ⟨100, 0⟩, width := 5, height := 100,
          rotation := 0 }).direction = -1 ∧
      ¬(0 ≤ (calculateVirtualImagePosition ⟨⟨0, 0⟩, 10, 181⟩
        { id := 0, position := ⟨100, 0⟩, width := 5, height := 100,
          rotation := 0 }).direction) := by
  have hfloor : ⌊(1:ℝ) / 360⌋ = 0 := by
    rw [Int.floor_eq_zero_iff]
    constructor <;> norm_num
  have hone : jsRem 1 360 = 1 := by
    rw [jsRem, show ((1:ℝ) / 360) = 1 / 360 by ring]
    rw [show jsTrunc ((1:ℝ) / 360) = ⌊(1:ℝ) / 360⌋ by
      simp [jsTrunc]]
    rw [hfloor]
    norm_num
  have hneg : jsRem (-1) 360 = -1 := by
    rw [show ((-1:ℝ)) = -(1:ℝ) by norm_num, jsRem_neg_eq, hone]
  have hnorm : normalizedMirrorAngle
      { id := 0, position := ⟨100, 0⟩, width := 5, height := 100,
        rotation := 0 } = 0 := by
    have hz : jsRem 0 360 = 0 := by
      simp [jsRem, jsTrunc]
    have h360 : jsRem 360 360 = 0 := by
      rw [jsRem, show ((360:ℝ) / 360) = 1 by norm_num]
      rw [show jsTrunc (1:ℝ) = 1 by simp [jsTrunc]]
      norm_num
    simp only [normalizedMirrorAngle]
    rw [show ((0:ℝ) * π / 180 * 180 / π) = 0 by ring, hz, zero_add, h360]
  have hdir : (calculateVirtualImagePosition ⟨⟨0, 0⟩, 10, 181⟩
      { id := 0, position := ⟨100, 0⟩, width := 5, height := 100,
        rotation := 0 }).direction = -1 := by
    show jsRem (2 * normalizedMirrorAngle _ - (181:ℝ) + 180) 360 = -1
    rw [hnorm, show (2 * (0:ℝ) - 181 + 180) = -1 by ring, hneg]
  exact ⟨hdir, by rw [hdir]; norm_num⟩

/-! ### C10: a group of fewer than two mirrors yields no images -/

/-- C10: for every object, every `maxReflections`, and every mirror list
with fewer than two mirrors, `calculateParallelMirrorImages` returns the
empty list. -/
theorem calculateParallelMirrorImages_lt_two (o : ObjectProps)
    (mirrors : List MirrorProps) (maxReflections : ℕ)
    (h : mirrors.length < 2) :
    calculateParallelMirrorImages o mirrors maxReflections = [] := by
  simp [calculateParallelMirrorImages, h]

/-- Witness for C10: a single mirror produces no images even at
`maxReflections = 3`. -/
theorem calculateParallelMirrorImages_lt_two_witness :
    calculateParallelMirrorImages ⟨⟨0, 0⟩, 10, 0⟩
      [{ id := 0, position := ⟨100, 0⟩, width := 5, height := 100,
         rotation := 0 }] 3 = [] :=
  calculateParallelMirrorImages_lt_two _ _ _ (by norm_num)

/-! ### C6: characterization of the segment intersection -/

/-- C6: `lineIntersection` returns `none` exactly when the absolute
denominator is below the `1e-4` tolerance or one of the solved parameters
`ua`, `ub` leaves `[0, 1]`; otherwise it returns the point
`p1 + ua * (p2 - p1)`, which lies on both segments (it also equals
`p3 + ub * (p4 - p3)`, with both parameters in `[0, 1]`). -/
theorem lineIntersection_spec (p1 p2 p3 p4 : Point) :
    (lineIntersection p1 p2 p3 p4 = none ↔
      |interDenom p1 p2 p3 p4| < 0.0001 ∨
        interUa p1 p2 p3 p4 < 0 ∨ interUa p1 p2 p3 p4 > 1 ∨
        interUb p1 p2 p3 p4 < 0 ∨ interUb p1 p2 p3 p4 > 1) ∧
    (∀ q : Point, lineIntersection p1 p2 p3 p4 = some q →
      q.x = p1.x + interUa p1 p2 p3 p4 * (p2.x - p1.x) ∧
      q.y = p1.y + interUa p1 p2 p3 p4 * (p2.y - p1.y) ∧
      0 ≤ interUa p1 p2 p3 p4 ∧ interUa p1 p2 p3 p4 ≤ 1 ∧
      0 ≤ interUb p1 p2 p3 p4 ∧ interUb p1 p2 p3 p4 ≤ 1 ∧
      q.x = p3.x + interUb p1 p2 p3 p4 * (p4.x - p3.x) ∧
      q.y = p3.y + interUb p1 p2 p3 p4 * (p4.y - p3.y)) := by
  have hmain : lineIntersection p1 p2 p3 p4 =
      if |interDenom p1 p2 p3 p4| < 0.0001 then none
      else if interUa p1 p2 p3 p4 < 0 ∨ interUa p1 p2 p3 p4 > 1 ∨
          interUb p1 p2 p3 p4 < 0 ∨ interUb p1 p2 p3 p4 > 1 then none
      else some ⟨p1.x + interUa p1 p2 p3 p4 * (p2.x - p1.x),
                 p1.y + interUa p1 p2 p3 p4 * (p2.y - p1.y)⟩ := rfl
  rw [hmain]
  split_ifs with h1 h2
  · exact ⟨iff_of_true rfl (Or.inl h1), fun q hq => nomatch hq⟩
  · exact ⟨iff_of_true rfl (Or.inr h2), fun q hq => nomatch hq⟩
  · have hd : interDenom p1 p2 p3 p4 ≠ 0 := by
      intro h0
      rw [h0] at h1
      simp at h1
      norm_num at h1
    push_neg at h2
    obtain ⟨hua0, hua1, hub0, hub1⟩ := h2
    refine ⟨iff_of_false (by simp) ?_, fun q hq => ?_⟩
    · push_neg
      exact ⟨not_lt.mp h1, hua0, hua1, hub0, hub1⟩
    · have hqx : q = (⟨p1.x + interUa p1 p2 p3 p4 * (p2.x - p1.x),
          p1.y + interUa p1 p2 p3 p4 * (p2.y - p1.y)⟩ : Point) :=
        (Option.some.injEq _ _ ▸ hq).symm
      subst hqx
      refine ⟨rfl, rfl, hua0, hua1, hub0, hub1, ?_, ?_⟩
      · show p1.x + interUa p1 p2 p3 p4 * (p2.x - p1.x) =
          p3.x + interUb p1 p2 p3 p4 * (p4.x - p3.x)
        rw [interUa, interUb]
        field_simp
        ring_nf
        rw [interDenom]
        ring
      · show p1.y + interUa p1 p2 p3 p4 * (p2.y - p1.y) =
          p3.y + interUb p1 p2 p3 p4 * (p4.y - p3.y)
        rw [interUa, interUb]
        field_simp
        ring_nf
        rw [interDenom]
        ring

/-- Witness for C6 at the crossing segments `(0,0)-(10,10)` and
`(0,10)-(10,0)`, whose intersection is `(5,5)`. -/
theorem lineIntersection_spec_witness :
    (⟨5, 5⟩ : Point).x = (⟨0, 0⟩ : Point).x +
        interUa ⟨0, 0⟩ ⟨10, 10⟩ ⟨0, 10⟩ ⟨10, 0⟩ *
          ((⟨10, 10⟩ : Point).x - (⟨0, 0⟩ : Point).x) ∧
      (⟨5, 5⟩ : Point).y = (⟨0, 0⟩ : Point).y +
        interUa ⟨0, 0⟩ ⟨10, 10⟩ ⟨0, 10⟩ ⟨10, 0⟩ *
          ((⟨10, 10⟩ : Point).y - (⟨0, 0⟩ : Point).y) ∧
      0 ≤ interUa ⟨0, 0⟩ ⟨10, 10⟩ ⟨0, 10⟩ ⟨10, 0⟩ ∧
      interUa ⟨0, 0⟩ ⟨10, 10⟩ ⟨0, 10⟩ ⟨10, 0⟩ ≤ 1 ∧
      0 ≤ interUb ⟨0, 0⟩ ⟨10, 10⟩ ⟨0, 10⟩ ⟨10, 0⟩ ∧
      interUb ⟨0, 0⟩ ⟨10, 10⟩ ⟨0, 10⟩ ⟨10, 0⟩ ≤ 1 ∧
      (⟨5, 5⟩ : Point).x = (⟨0, 10⟩ : Point).x +
        interUb ⟨0, 0⟩ ⟨10, 10⟩ ⟨0, 10⟩ ⟨10, 0⟩ *
          ((⟨10, 0⟩ : Point).x - (⟨0, 10⟩ : Point).x) ∧
      (⟨5, 5⟩ : Point).y = (⟨0, 10⟩ : Point).y +
        interUb ⟨0, 0⟩ ⟨10, 10⟩ ⟨0, 10⟩ ⟨10, 0⟩ *
          ((⟨10, 0⟩ : Point).y - (⟨0, 10⟩ : Point).y) :=
  (lineIntersection_spec ⟨0, 0⟩ ⟨10, 10⟩ ⟨0, 10⟩ ⟨10, 0⟩).2 ⟨5, 5⟩ (by
    have hden : interDenom ⟨0, 0⟩ ⟨10, 10⟩ ⟨0, 10⟩ ⟨10, 0⟩ = -200 := by
      norm_num [interDenom]
    have hua : interUa ⟨0, 0⟩ ⟨10, 10⟩ ⟨0, 10⟩ ⟨10, 0⟩ = 1 / 2 := by
      norm_num [interUa, hden]
    have hub : interUb ⟨0, 0⟩ ⟨10, 10⟩ ⟨0, 10⟩ ⟨10, 0⟩ = 1 / 2 := by
      norm_num [interUb, hden]
    rw [show lineIntersection ⟨0, 0⟩ ⟨10, 10⟩ ⟨0, 10⟩ ⟨10, 0⟩ =
        if |interDenom ⟨0, 0⟩ ⟨10, 10⟩ ⟨0, 10⟩ ⟨10, 0⟩| < 0.0001 then none
        else if interUa ⟨0, 0⟩ ⟨10, 10⟩ ⟨0, 10⟩ ⟨10, 0⟩ < 0 ∨
            interUa ⟨0, 0⟩ ⟨10, 10⟩ ⟨0, 10⟩ ⟨10, 0⟩ > 1 ∨
            interUb ⟨0, 0⟩ ⟨10, 10⟩ ⟨0, 10⟩ ⟨10, 0⟩ < 0 ∨
            interUb ⟨0, 0⟩ ⟨10, 10⟩ ⟨0, 10⟩ ⟨10, 0⟩ > 1 then none
        else some ⟨(⟨0, 0⟩ : Point).x + interUa ⟨0, 0⟩ ⟨10, 10⟩ ⟨0, 10⟩ ⟨10, 0⟩ *
            ((⟨10, 10⟩ : Point).x - (⟨0, 0⟩ : Point).x),
          (⟨0, 0⟩ : Point).y + interUa ⟨0, 0⟩ ⟨10, 10⟩ ⟨0, 10⟩ ⟨10, 0⟩ *
            ((⟨10, 10⟩ : Point).y - (⟨0, 0⟩ : Point).y)⟩ from rfl]
    rw [hden, hua, hub]
    norm_num)

/-! ### C3: characterization of image visibility -/

/-- C3: `isImageVisible` returns true exactly when some observer of the
list lies on the side of the source mirror plane strictly opposite to the
virtual position (negative product of signed side values) and the segment
from that observer to the virtual position meets no mirror other than the
source mirror; for an empty observer list it returns false. -/
theorem isImageVisible_iff (observers : List ObserverProps)
    (mirrors : List MirrorProps) (virtualPos : Point)
    (mirror : MirrorProps) :
    (isImageVisible observers mirrors virtualPos mirror = true ↔
      ∃ observer ∈ observers,
        dotProduct (subtractVectors observer.position mirror.position)
            (getMirrorNormal mirror) *
          dotProduct (subtractVectors virtualPos mirror.position)
            (getMirrorNormal mirror) < 0 ∧
        isDirectlyVisible observer.position virtualPos
          (mirrors.filter fun m => m.id != mirror.id) = true) ∧
    isImageVisible [] mirrors virtualPos mirror = false := by
  constructor
  · simp [isImageVisible, List.any_eq_true, Bool.and_eq_true,
      decide_eq_true_iff]
  · rfl

/-! ### C8: three mutually parallel mirrors end up in a single group -/

/-- C8: for a list of exactly three pairwise-parallel mirrors (distinct
objects, modelled by distinct ids), `findParallelMirrorGroups` returns
exactly one group, containing all three mirrors. -/
theorem findParallelMirrorGroups_three_parallel (a b c : MirrorProps)
    (hab : areParallel a b = true) (hac : areParallel a c = true)
    (hbc : areParallel b c = true) (hab2 : a.id ≠ b.id)
    (hac2 : a.id ≠ c.id) (hbc2 : b.id ≠ c.id) :
    findParallelMirrorGroups [a, b, c] = [[a, b, c]] := by
  simp [findParallelMirrorGroups, allPairs, addPairToGroups, absorbPair,
    mirrorMem, hab, hac, hbc, hab2, hac2, hbc2]

/-- Witness for C8: three concrete mirrors with rotations 0, 0 and 180
(parallel in both the same-facing and the opposite-facing sense). -/
theorem findParallelMirrorGroups_three_parallel_witness :
    findParallelMirrorGroups
        [{ id := 1, position := ⟨0, 0⟩, width := 5, height := 100,
           rotation := 0 },
         { id := 2, position := ⟨50, 0⟩, width := 5, height := 100,
           rotation := 0 },
         { id := 3, position := ⟨100, 0⟩, width := 5, height := 100,
           rotation := 180 }] =
      [[{ id := 1, position := ⟨0, 0⟩, width := 5, height := 100,
          rotation := 0 },
        { id := 2, position := ⟨50, 0⟩, width := 5, height := 100,
          rotation := 0 },
        { id := 3, position := ⟨100, 0⟩, width := 5, height := 100,
          rotation := 180 }]] := by
  have hzero : Real.cos ((0:ℝ) * π / 180) = 1 ∧
      Real.sin ((0:ℝ) * π / 180) = 0 := by
    rw [show ((0:ℝ) * π / 180) = 0 by ring]
    simp
  have hpi : Real.cos ((180:ℝ) * π / 180) = -1 ∧
      Real.sin ((180:ℝ) * π / 180) = 0 := by
    rw [show ((180:ℝ) * π / 180) = π by ring]
    simp
  apply findParallelMirrorGroups_three_parallel
  · simp only [areParallel, getMirrorNormal, decide_eq_true_iff]
    rw [hzero.1, hzero.2]
    norm_num
  · simp only [areParallel, getMirrorNormal, decide_eq_true_iff]
    rw [hzero.1, hzero.2, hpi.1, hpi.2]
    norm_num
  · simp only [areParallel, getMirrorNormal, decide_eq_true_iff]
    rw [hzero.1, hzero.2, hpi.1, hpi.2]
    norm_num
  · norm_num
  · norm_num
  · norm_num

/-! ### C7: structure of the groups returned by findParallelMirrorGroups -/

theorem areParallel_symm (a b : MirrorProps) :
    areParallel a b = areParallel b a := by
  have h : Real.cos (a.rotation * π / 180) * Real.cos (b.rotation * π / 180) +
      Real.sin (a.rotation * π / 180) * Real.sin (b.rotation * π / 180) =
      Real.cos (b.rotation * π / 180) * Real.cos (a.rotation * π / 180) +
      Real.sin (b.rotation * π / 180) * Real.sin (a.rotation * π / 180) := by
    ring
  simp only [areParallel, getMirrorNormal, h]

theorem mem_of_mem_allPairs {l : List MirrorProps}
    {p : MirrorProps × MirrorProps} (hp : p ∈ allPairs l) :
    p.1 ∈ l ∧ p.2 ∈ l := by
  induction l with
  | nil => simp [allPairs] at hp
  | cons x xs ih =>
    simp only [allPairs, List.mem_append, List.mem_map] at hp
    rcases hp with ⟨m2, hm2, hpe⟩ | hp
    · rw [← hpe]
      exact ⟨List.mem_cons_self x xs, List.mem_cons_of_mem x hm2⟩
    · obtain ⟨h1, h2⟩ := ih hp
      exact ⟨List.mem_cons_of_mem x h1, List.mem_cons_of_mem x h2⟩

theorem allPairs_id_ne {l : List MirrorProps}
    (h : (l.map MirrorProps.id).Nodup) :
    ∀ p ∈ allPairs l, p.1.id ≠ p.2.id := by
  induction l with
  | nil => simp [allPairs]
  | cons x xs ih =>
    simp only [List.map_cons, List.nodup_cons] at h
    intro p hp
    simp only [allPairs, List.mem_append, List.mem_map] at hp
    rcases hp with ⟨m2, hm2, hpe⟩ | hp
    · rw [← hpe]
      intro hcon
      exact h.1 (hcon ▸ List.mem_map_of_mem MirrorProps.id hm2)
    · exact ih h.2 p hp

/-- The combined invariant used for the structural analysis of
`findParallelMirrorGroups`: every group draws its members from the scene
mirror list, has at least two members, and every member is parallel to
some other member (by id) of the same group. -/
def GroupsInv (mirrors : List MirrorProps)
    (groups : List (List MirrorProps)) : Prop :=
  ∀ g ∈ groups, (∀ m ∈ g, m ∈ mirrors) ∧ 2 ≤ g.length ∧
    ∀ m ∈ g, ∃ m2 ∈ g, m2.id ≠ m.id ∧ areParallel m m2 = true

theorem mirrorMem_true_mem {mirrors : List MirrorProps}
    (hnd : (mirrors.map MirrorProps.id).Nodup) {g : List MirrorProps}
    {m : MirrorProps} (hg : ∀ x ∈ g, x ∈ mirrors) (hm : m ∈ mirrors)
    (h : mirrorMem g m = true) : m ∈ g := by
  obtain ⟨x, hx, hxid⟩ := by
    simpa [mirrorMem, List.any_eq_true, beq_iff_eq] using h
  have hxeq : x = m := List.inj_on_of_nodup_map hnd (hg x hx) hm hxid
  exact hxeq ▸ hx

theorem mem_absorbPair_left {g : List MirrorProps} {a b m : MirrorProps}
    (hm : m ∈ g) : m ∈ absorbPair g a b := by
  simp only [absorbPair]
  split_ifs with h1 h2 h3 <;>
    first
      | exact hm
      | exact List.mem_append_left _ hm
      | exact List.mem_append_left _ (List.mem_append_left _ hm)

theorem mem_absorbPair_cases {g : List MirrorProps} {a b m : MirrorProps}
    (hm : m ∈ absorbPair g a b) : m ∈ g ∨ m = a ∨ m = b := by
  simp only [absorbPair] at hm
  split_ifs at hm <;>
    (try simp only [List.mem_append, List.mem_singleton] at hm) <;>
    tauto

theorem length_le_absorbPair (g : List MirrorProps) (a b : MirrorProps) :
    g.length ≤ (absorbPair g a b).length := by
  simp only [absorbPair]
  split_ifs <;> simp

theorem a_mem_absorbPair {mirrors : List MirrorProps}
    (hnd : (mirrors.map MirrorProps.id).Nodup) {g : List MirrorProps}
    {a b : MirrorProps} (hg : ∀ x ∈ g, x ∈ mirrors) (ha : a ∈ mirrors) :
    a ∈ absorbPair g a b := by
  simp only [absorbPair]
  by_cases h1 : mirrorMem g a
  · have hag : a ∈ g := mirrorMem_true_mem hnd hg ha h1
    rw [if_pos h1]
    split_ifs with h2
    · exact hag
    · exact List.mem_append_left _ hag
  · rw [if_neg h1]
    split_ifs with h2
    · exact List.mem_append_right _ (List.mem_singleton_self a)
    · exact List.mem_append_left _
        (List.mem_append_right _ (List.mem_singleton_self a))

theorem b_mem_absorbPair {mirrors : List MirrorProps}
    (hnd : (mirrors.map MirrorProps.id).Nodup) {g : List MirrorProps}
    {a b : MirrorProps} (hg : ∀ x ∈ g, x ∈ mirrors) (ha : a ∈ mirrors)
    (hb : b ∈ mirrors) : b ∈ absorbPair g a b := by
  simp only [absorbPair]
  have hg1 : ∀ x ∈ (if mirrorMem g a then g else g ++ [a]), x ∈ mirrors := by
    intro x hx
    split_ifs at hx with h
    · exact hg x hx
    · rcases List.mem_append.mp hx with hy | hy
      · exact hg x hy
      · exact (List.mem_singleton.mp hy) ▸ ha
  by_cases h2 : mirrorMem (if mirrorMem g a then g else g ++ [a]) b
  · rw [if_pos h2]
    exact mirrorMem_true_mem hnd hg1 hb h2
  · rw [if_neg h2]
    exact List.mem_append_right _ (List.mem_singleton_self b)

theorem addPairToGroups_preserves {mirrors : List MirrorProps}
    (hnd : (mirrors.map MirrorProps.id).Nodup)
    {groups : List (List MirrorProps)} {a b : MirrorProps}
    (hP : GroupsInv mirrors groups) (ha : a ∈ mirrors) (hb : b ∈ mirrors)
    (hpar : areParallel a b = true) (hid : a.id ≠ b.id) :
    GroupsInv mirrors (addPairToGroups groups a b) := by
  induction groups with
  | nil =>
    intro g hg
    simp only [addPairToGroups, List.mem_singleton] at hg
    subst hg
    refine ⟨?_, by simp, ?_⟩
    · intro m hm
      rcases List.mem_pair.mp hm with rfl | rfl
      · exact ha
      · exact hb
    · intro m hm
      rcases List.mem_pair.mp hm with rfl | rfl
      · exact ⟨b, by simp, Ne.symm hid, hpar⟩
      · exact ⟨a, by simp, hid, by rw [areParallel_symm]; exact hpar⟩
  | cons g gs ih =>
    have hPg := hP g (List.mem_cons_self g gs)
    have hPgs : GroupsInv mirrors gs := fun x hx =>
      hP x (List.mem_cons_of_mem g hx)
    show GroupsInv mirrors
      (if mirrorMem g a || mirrorMem g b then absorbPair g a b :: gs
       else g :: addPairToGroups gs a b)
    split_ifs with hcond
    · intro g0 hg0
      rcases List.mem_cons.mp hg0 with rfl | hg0
      · refine ⟨?_, ?_, ?_⟩
        · intro m hm
          rcases mem_absorbPair_cases hm with h | rfl | rfl
          · exact hPg.1 m h
          · exact ha
          · exact hb
        · exact le_trans hPg.2.1 (length_le_absorbPair g a b)
        · intro m hm
          rcases mem_absorbPair_cases hm with h | rfl | rfl
          · obtain ⟨m2, hm2, hne, hp⟩ := hPg.2.2 m h
            exact ⟨m2, mem_absorbPair_left hm2, hne, hp⟩
          · exact ⟨b, b_mem_absorbPair hnd hPg.1 ha hb, Ne.symm hid, hpar⟩
          · exact ⟨a, a_mem_absorbPair hnd hPg.1 ha, hid,
              by rw [areParallel_symm]; exact hpar⟩
      · exact hPgs g0 hg0
    · intro g0 hg0
      rcases List.mem_cons.mp hg0 with rfl | hg0
      · exact hPg
      · exact ih hPgs g0 hg0

/-- C7 (amended): every group returned by `findParallelMirrorGroups` has
at least two mirrors and every member of a group is parallel (within
tolerance) to at least one other member of that group; the groups need not
be pairwise disjoint, and the members of a group need not be pairwise
parallel. -/
theorem findParallelMirrorGroups_groups_connected
    (mirrors : List MirrorProps)
    (hnd : (mirrors.map MirrorProps.id).Nodup) :
    ∀ g ∈ findParallelMirrorGroups mirrors, 2 ≤ g.length ∧
      ∀ m ∈ g, ∃ m2 ∈ g, m2.id ≠ m.id ∧ areParallel m m2 = true := by
  have hmain : ∀ (pairs : List (MirrorProps × MirrorProps))
      (groups : List (List MirrorProps)),
      (∀ p ∈ pairs, p.1 ∈ mirrors ∧ p.2 ∈ mirrors ∧ p.1.id ≠ p.2.id) →
      GroupsInv mirrors groups →
      GroupsInv mirrors (pairs.foldl
        (fun gs p =>
          if areParallel p.1 p.2 then addPairToGroups gs p.1 p.2 else gs)
        groups) := by
    intro pairs
    induction pairs with
    | nil => intro groups _ hP; exact hP
    | cons p ps ih =>
      intro groups hps hP
      simp only [List.foldl_cons]
      apply ih
      · intro q hq
        exact hps q (List.mem_cons_of_mem p hq)
      · obtain ⟨h1, h2, h3⟩ := hps p (List.mem_cons_self p ps)
        by_cases hpar : areParallel p.1 p.2
        · rw [if_pos hpar]
          exact addPairToGroups_preserves hnd hP h1 h2 hpar h3
        · rw [if_neg hpar]
          exact hP
  have hinv : GroupsInv mirrors (findParallelMirrorGroups mirrors) := by
    rw [findParallelMirrorGroups]
    apply hmain
    · intro p hp
      obtain ⟨h1, h2⟩ := mem_of_mem_allPairs hp
      exact ⟨h1, h2, allPairs_id_ne hnd p hp⟩
    · intro g hg
      simp at hg
  intro g hg
  exact ⟨(hinv g hg).2.1, (hinv g hg).2.2⟩

/-- A concrete vertical mirror used to instantiate grouping statements. -/
def parMirrorA : MirrorProps :=
  { id := 1, position := ⟨0, 0⟩, width := 5, height := 100, rotation := 0 }

/-- A second concrete vertical mirror, parallel to `parMirrorA`. -/
def parMirrorB : MirrorProps :=
  { id := 2, position := ⟨50, 0⟩, width := 5, height := 100, rotation := 0 }

theorem areParallel_parMirrorAB : areParallel parMirrorA parMirrorB = true := by
  simp only [areParallel, getMirrorNormal, parMirrorA, parMirrorB,
    decide_eq_true_iff]
  rw [show ((0:ℝ) * π / 180) = 0 by ring]
  simp
  norm_num

/-- Witness for the amended C7: two concrete parallel mirrors form a
single two-element group in which each member has a parallel partner. -/
theorem findParallelMirrorGroups_groups_connected_witness :
    2 ≤ ([parMirrorA, parMirrorB] : List MirrorProps).length ∧
      ∃ m2 ∈ ([parMirrorA, parMirrorB] : List MirrorProps),
        m2.id ≠ parMirrorA.id ∧ areParallel parMirrorA m2 = true := by
  have h := findParallelMirrorGroups_groups_connected [parMirrorA, parMirrorB]
    (by simp [parMirrorA, parMirrorB])
  have heval : findParallelMirrorGroups [parMirrorA, parMirrorB] =
      [[parMirrorA, parMirrorB]] := by
    simp [findParallelMirrorGroups, allPairs, addPairToGroups, absorbPair,
      mirrorMem, areParallel_parMirrorAB]
  have hg := h [parMirrorA, parMirrorB] (by rw [heval]; simp)
  exact ⟨hg.1, hg.2 parMirrorA (by simp)⟩

/-! ### C7 counterexample: the returned groups are not a partition -/

theorem abs_cos_gt {x : ℝ} (h1 : |x| ≤ 1)
    (h2 : x ^ 2 / 2 + |x| ^ 4 * (5 / 96) < 1 / 1000) :
    1 - 0.001 < |Real.cos x| := by
  have hb := abs_sub_le_iff.mp (Real.cos_bound h1)
  have hcos : (1:ℝ) - 0.001 < Real.cos x := by
    have := hb.2
    norm_num at this ⊢
    linarith
  exact lt_of_lt_of_le hcos (le_abs_self _)

theorem abs_cos_lt {x : ℝ} (h1 : |x| ≤ 1)
    (h2 : 1 / 1000 < x ^ 2 / 2 - |x| ^ 4 * (5 / 96))
    (h3 : x ^ 2 / 2 + |x| ^ 4 * (5 / 96) < 1) :
    ¬(1 - 0.001 < |Real.cos x|) := by
  have hb := abs_sub_le_iff.mp (Real.cos_bound h1)
  have hup : Real.cos x ≤ 1 - x ^ 2 / 2 + |x| ^ 4 * (5 / 96) := by
    have := hb.1
    linarith
  have hlow : 1 - x ^ 2 / 2 - |x| ^ 4 * (5 / 96) ≤ Real.cos x := by
    have := hb.2
    linarith
  have hpos : 0 < Real.cos x := by linarith
  rw [abs_of_pos hpos]
  norm_num
  linarith

/-- Rewrites `areParallel` through `cos` of the angle difference, given the
two mirror angles in radians. -/
theorem areParallel_eval (m1 m2 : MirrorProps) (x1 x2 : ℝ)
    (h1 : m1.rotation * π / 180 = x1) (h2 : m2.rotation * π / 180 = x2) :
    areParallel m1 m2 = decide (1 - 0.001 < |Real.cos (x1 - x2)|) := by
  simp only [areParallel, getMirrorNormal, h1, h2]
  rw [show Real.cos x1 * Real.cos x2 + Real.sin x1 * Real.sin x2 =
      Real.cos (x1 - x2) from (Real.cos_sub x1 x2).symm]

/-- Counterexample mirror 0 for the grouping claim: angle 0 radians. -/
def cexM0 : MirrorProps :=
  { id := 10, position := ⟨0, 0⟩, width := 5, height := 100, rotation := 0 }

/-- Counterexample mirror 1: angle 0.04 radians
(rotation 7.2/π degrees). -/
def cexM1 : MirrorProps :=
  { id := 11, position := ⟨10, 0⟩, width := 5, height := 100,
    rotation := 7.2 / π }

/-- Counterexample mirror 2: angle 0.16 radians. -/
def cexM2 : MirrorProps :=
  { id := 12, position := ⟨20, 0⟩, width := 5, height := 100,
    rotation := 28.8 / π }

/-- Counterexample mirror 3: angle 0.12 radians. -/
def cexM3 : MirrorProps :=
  { id := 13, position := ⟨30, 0⟩, width := 5, height := 100,
    rotation := 21.6 / π }

/-- Counterexample mirror 4: angle 0.08 radians. -/
def cexM4 : MirrorProps :=
  { id := 14, position := ⟨40, 0⟩, width := 5, height := 100,
    rotation := 14.4 / π }

/-- The five counterexample mirrors: consecutive angle gaps of 0.04
radians are within the parallel tolerance, gaps of 0.08 radians and more
are not. -/
def cexMirrors : List MirrorProps := [cexM0, cexM1, cexM2, cexM3, cexM4]

theorem cexRadians :
    cexM0.rotation * π / 180 = 0 ∧ cexM1.rotation * π / 180 = 0.04 ∧
      cexM2.rotation * π / 180 = 0.16 ∧ cexM3.rotation * π / 180 = 0.12 ∧
      cexM4.rotation * π / 180 = 0.08 := by
  have hpi := Real.pi_ne_zero
  refine ⟨?_, ?_, ?_, ?_, ?_⟩ <;>
    simp only [cexM0, cexM1, cexM2, cexM3, cexM4] <;>
    field_simp <;>
    norm_num

theorem cexParallel04 : ∀ d : ℝ, |d| = 0.04 →
    (1 - 0.001 < |Real.cos d|) := fun d hd =>
  abs_cos_gt (by rw [hd]; norm_num)
    (by rw [hd, show d ^ 2 = |d| ^ 2 from (sq_abs d).symm, hd]; norm_num)

theorem cexApart (d : ℝ) (hd : |d| = 0.08 ∨ |d| = 0.12 ∨ |d| = 0.16) :
    ¬(1 - 0.001 < |Real.cos d|) := by
  have hsq : d ^ 2 = |d| ^ 2 := (sq_abs d).symm
  rcases hd with hd | hd | hd <;>
    exact abs_cos_lt (by rw [hd]; norm_num)
      (by rw [hsq, hd]; norm_num) (by rw [hsq, hd]; norm_num)

/-- C7 (counterexample): on the five concrete mirrors above,
`findParallelMirrorGroups` produces groups `[[10, 11, 14, 13], [12, 13]]`
(by id): mirror 13 appears in two different groups, so the groups are not
pairwise disjoint, and mirrors 10 and 13 share a group although they are
not parallel — refuting both halves of the partition claim. -/
theorem findParallelMirrorGroups_not_partition :
    (findParallelMirrorGroups cexMirrors).map (fun g => g.map MirrorProps.id) =
        [[10, 11, 14, 13], [12, 13]] ∧
      areParallel cexM0 cexM3 = false ∧
      ¬(∀ g1 ∈ findParallelMirrorGroups cexMirrors,
          ∀ g2 ∈ findParallelMirrorGroups cexMirrors,
          g1 = g2 ∨ ∀ m ∈ g1, m ∉ g2) ∧
      ¬(∀ g ∈ findParallelMirrorGroups cexMirrors,
          ∀ m ∈ g, ∀ m2 ∈ g, m2 = m ∨ areParallel m m2 = true) := by
  obtain ⟨hr0, hr1, hr2, hr3, hr4⟩ := cexRadians
  have h01 : areParallel cexM0 cexM1 = true := by
    rw [areParallel_eval _ _ _ _ hr0 hr1, decide_eq_true_iff]
    exact cexParallel04 _ (by norm_num)
  have h14 : areParallel cexM1 cexM4 = true := by
    rw [areParallel_eval _ _ _ _ hr1 hr4, decide_eq_true_iff]
    exact cexParallel04 _ (by norm_num)
  have h23 : areParallel cexM2 cexM3 = true := by
    rw [areParallel_eval _ _ _ _ hr2 hr3, decide_eq_true_iff]
    exact cexParallel04 _ (by norm_num)
  have h34 : areParallel cexM3 cexM4 = true := by
    rw [areParallel_eval _ _ _ _ hr3 hr4, decide_eq_true_iff]
    exact cexParallel04 _ (by norm_num)
  have h02 : areParallel cexM0 cexM2 = false := by
    rw [areParallel_eval _ _ _ _ hr0 hr2, decide_eq_false_iff_not]
    exact cexApart _ (by norm_num)
  have h03 : areParallel cexM0 cexM3 = false := by
    rw [areParallel_eval _ _ _ _ hr0 hr3, decide_eq_false_iff_not]
    exact cexApart _ (by norm_num)
  have h04 : areParallel cexM0 cexM4 = false := by
    rw [areParallel_eval _ _ _ _ hr0 hr4, decide_eq_false_iff_not]
    exact cexApart _ (by norm_num)
  have h12 : areParallel cexM1 cexM2 = false := by
    rw [areParallel_eval _ _ _ _ hr1 hr2, decide_eq_false_iff_not]
    exact cexApart _ (by norm_num)
  have h13 : areParallel cexM1 cexM3 = false := by
    rw [areParallel_eval _ _ _ _ hr1 hr3, decide_eq_false_iff_not]
    exact cexApart _ (by norm_num)
  have h24 : areParallel cexM2 cexM4 = false := by
    rw [areParallel_eval _ _ _ _ hr2 hr4, decide_eq_false_iff_not]
    exact cexApart _ (by norm_num)
  have i0 : cexM0.id = 10 := rfl
  have i1 : cexM1.id = 11 := rfl
  have i2 : cexM2.id = 12 := rfl
  have i3 : cexM3.id = 13 := rfl
  have i4 : cexM4.id = 14 := rfl
  have heval : findParallelMirrorGroups cexMirrors =
      [[cexM0, cexM1, cexM4, cexM3], [cexM2, cexM3]] := by
    simp [findParallelMirrorGroups, cexMirrors, allPairs, addPairToGroups,
      absorbPair, mirrorMem, h01, h14, h23, h34, h02, h03, h04, h12, h13,
      h24, i0, i1, i2, i3, i4]
  refine ⟨?_, h03, ?_, ?_⟩
  · rw [heval]
    simp [i0, i1, i2, i3, i4]
  · intro hcon
    have := hcon [cexM0, cexM1, cexM4, cexM3] (by rw [heval]; simp)
      [cexM2, cexM3] (by rw [heval]; simp)
    rcases this with hne | hdisj
    · have : cexM0.id = cexM2.id := by rw [show cexM0 = cexM2 by
        exact List.head_eq_of_cons_eq hne]
      simp [cexM0, cexM2] at this
    · exact hdisj cexM3 (by simp) (by simp)
  · intro hcon
    have := hcon [cexM0, cexM1, cexM4, cexM3] (by rw [heval]; simp)
      cexM0 (by simp) cexM3 (by simp)
    rcases this with heq | hpar
    · have : cexM3.id = cexM0.id := by rw [heq]
      simp [cexM0, cexM3] at this
    · rw [h03] at hpar
      exact Bool.false_ne_true hpar

/-! ### C9: the ray-path reconstruction truncates instead of failing -/

/-- C9: reconstructing the ray path of an image of order above 1, when at
some step no previously accepted image of the next lower order with a
different source mirror exists (the backward `find` fails), or the segment
toward the found earlier image misses that image's mirror, the loop
contributes no further segments — the reconstruction stops and
`drawLightRay` returns exactly the segments built so far.  Everything is a
total function returning a list: no exception reaches the caller. -/
theorem drawLightRay_truncates (virtualImage : VirtualImage)
    (object : ObjectProps) (observer : ObserverProps)
    (mirror : MirrorProps) (images : List VirtualImage) (mi : Point) :
    (lineIntersection virtualImage.position observer.position
        (getMirrorEndpoints mirror).1 (getMirrorEndpoints mirror).2 =
          some mi →
      1 < virtualImage.order →
      drawLightRay virtualImage object observer mirror images =
        ⟨mi, observer.position, false⟩ :: ⟨mi, virtualImage.position, true⟩ ::
          rayLoop object images virtualImage.order mi virtualImage) ∧
    (∀ (fuel : ℕ) (p : Point) (cur : VirtualImage), 0 < fuel →
      1 < cur.order →
      images.find? (fun img => img.order == cur.order - 1 &&
        img.sourceMirror.id != cur.sourceMirror.id) = none →
      rayLoop object images fuel p cur = []) ∧
    (∀ (fuel : ℕ) (p : Point) (cur prev : VirtualImage), 0 < fuel →
      1 < cur.order →
      images.find? (fun img => img.order == cur.order - 1 &&
        img.sourceMirror.id != cur.sourceMirror.id) = some prev →
      lineIntersection p prev.position
        (getMirrorEndpoints prev.sourceMirror).1
        (getMirrorEndpoints prev.sourceMirror).2 = none →
      rayLoop object images fuel p cur = []) := by
  refine ⟨?_, ?_, ?_⟩
  · intro hinter horder
    unfold drawLightRay
    rw [hinter]
    have : (virtualImage.order == 1) = false := by
      simp only [beq_eq_false_iff_ne, ne_eq]
      omega
    rw [this]
    simp
  · intro fuel p cur hfuel horder hfind
    obtain ⟨f, rfl⟩ : ∃ f, fuel = f + 1 :=
      ⟨fuel - 1, by omega⟩
    unfold rayLoop
    rw [if_pos horder, hfind]
  · intro fuel p cur prev hfuel horder hfind hinter
    obtain ⟨f, rfl⟩ : ∃ f, fuel = f + 1 :=
      ⟨fuel - 1, by omega⟩
    unfold rayLoop
    rw [if_pos horder, hfind]
    simp [hinter]

/-- A concrete vertical mirror for the ray-path witness. -/
def rayMirror : MirrorProps :=
  { id := 7, position := ⟨0, 0⟩, width := 5, height := 20, rotation := 0 }

/-- A concrete order-2 virtual image whose backward chain is broken (the
accepted-image list is empty). -/
def rayImage : VirtualImage :=
  { position := ⟨-5, 0⟩, size := 10, direction := 0, order := 2,
    sourceMirror := rayMirror }

theorem rayMirror_endpoints :
    getMirrorEndpoints rayMirror = (⟨0, -10⟩, ⟨0, 10⟩) := by
  simp only [getMirrorEndpoints, rayMirror]
  rw [show ((0:ℝ) * π / 180) = 0 by ring]
  norm_num

theorem rayScene_intersection :
    lineIntersection rayImage.position (⟨5, 0⟩ : Point)
      (getMirrorEndpoints rayMirror).1 (getMirrorEndpoints rayMirror).2 =
      some ⟨0, 0⟩ := by
  rw [rayMirror_endpoints]
  show lineIntersection ⟨-5, 0⟩ ⟨5, 0⟩ ⟨0, -10⟩ ⟨0, 10⟩ = some ⟨0, 0⟩
  have hden : interDenom ⟨-5, 0⟩ ⟨5, 0⟩ ⟨0, -10⟩ ⟨0, 10⟩ = 200 := by
    norm_num [interDenom]
  have hua : interUa ⟨-5, 0⟩ ⟨5, 0⟩ ⟨0, -10⟩ ⟨0, 10⟩ = 1 / 2 := by
    norm_num [interUa, hden]
  have hub : interUb ⟨-5, 0⟩ ⟨5, 0⟩ ⟨0, -10⟩ ⟨0, 10⟩ = 1 / 2 := by
    norm_num [interUb, hden]
  rw [show lineIntersection ⟨-5, 0⟩ ⟨5, 0⟩ ⟨0, -10⟩ ⟨0, 10⟩ =
      if |interDenom ⟨-5, 0⟩ ⟨5, 0⟩ ⟨0, -10⟩ ⟨0, 10⟩| < 0.0001 then none
      else if interUa ⟨-5, 0⟩ ⟨5, 0⟩ ⟨0, -10⟩ ⟨0, 10⟩ < 0 ∨
          interUa ⟨-5, 0⟩ ⟨5, 0⟩ ⟨0, -10⟩ ⟨0, 10⟩ > 1 ∨
          interUb ⟨-5, 0⟩ ⟨5, 0⟩ ⟨0, -10⟩ ⟨0, 10⟩ < 0 ∨
          interUb ⟨-5, 0⟩ ⟨5, 0⟩ ⟨0, -10⟩ ⟨0, 10⟩ > 1 then none
      else some ⟨(⟨-5, 0⟩ : Point).x + interUa ⟨-5, 0⟩ ⟨5, 0⟩ ⟨0, -10⟩ ⟨0, 10⟩ *
          ((⟨5, 0⟩ : Point).x - (⟨-5, 0⟩ : Point).x),
        (⟨-5, 0⟩ : Point).y + interUa ⟨-5, 0⟩ ⟨5, 0⟩ ⟨0, -10⟩ ⟨0, 10⟩ *
          ((⟨5, 0⟩ : Point).y - (⟨-5, 0⟩ : Point).y)⟩ from rfl]
  rw [hden, hua, hub]
  norm_num

/-- Witness for C9: the order-2 image above, with an empty accepted-image
list, yields exactly the two initial segments and nothing more. -/
theorem drawLightRay_truncates_witness :
    drawLightRay rayImage ⟨⟨-7, 0⟩, 10, 0⟩ ⟨⟨5, 0⟩, 8⟩ rayMirror [] =
      [⟨⟨0, 0⟩, ⟨5, 0⟩, false⟩, ⟨⟨0, 0⟩, rayImage.position, true⟩] := by
  obtain ⟨hmain, hnone, _⟩ := drawLightRay_truncates rayImage ⟨⟨-7, 0⟩, 10, 0⟩
    ⟨⟨5, 0⟩, 8⟩ rayMirror [] ⟨0, 0⟩
  rw [hmain rayScene_intersection (by norm_num [rayImage]),
    hnone rayImage.order ⟨0, 0⟩ rayImage (by norm_num [rayImage])
      (by norm_num [rayImage]) rfl]

/-! ### C1: two parallel mirrors 400 units apart, object centered -/

/-- The left mirror of the C1 scenario: rotation 180 degrees, 400 units
from the right mirror. -/
def pmM1 : MirrorProps :=
  { id := 1, position := ⟨-200, 0⟩, width := 5, height := 300,
    rotation := 180 }

/-- The right mirror of the C1 scenario: rotation 0 degrees. -/
def pmM2 : MirrorProps :=
  { id := 2, position := ⟨200, 0⟩, width := 5, height := 300,
    rotation := 0 }

/-- The object of the C1 scenario, centered exactly between the mirrors. -/
def pmObj : ObjectProps := ⟨⟨0, 0⟩, 20, 0⟩

/-- The direction folding applied by a reflection in `pmM1`. -/
def jsDir1 (d : ℝ) : ℝ :=
  jsRem (2 * normalizedMirrorAngle pmM1 - d + 180) 360

/-- The direction folding applied by a reflection in `pmM2`. -/
def jsDir2 (d : ℝ) : ℝ :=
  jsRem (2 * normalizedMirrorAngle pmM2 - d + 180) 360

theorem pmM1_trig : Real.cos (pmM1.rotation * π / 180) = -1 ∧
    Real.sin (pmM1.rotation * π / 180) = 0 := by
  rw [show pmM1.rotation * π / 180 = π by
    rw [show pmM1.rotation = 180 from rfl]; ring]
  simp

theorem pmM2_trig : Real.cos (pmM2.rotation * π / 180) = 1 ∧
    Real.sin (pmM2.rotation * π / 180) = 0 := by
  rw [show pmM2.rotation * π / 180 = 0 by
    rw [show pmM2.rotation = 0 from rfl]; ring]
  simp

/-- Reflection of a point object in the left mirror of the scenario:
`x` goes to `-400 - x`, the rest follows the general formulas. -/
theorem pmImgM1 (x y s d : ℝ) :
    calculateVirtualImagePosition ⟨⟨x, y⟩, s, d⟩ pmM1 =
      ⟨⟨-400 - x, y⟩, s, jsDir1 d, 1, pmM1⟩ := by
  obtain ⟨hc, hs⟩ := pmM1_trig
  simp only [calculateVirtualImagePosition, getMirrorNormal, subtractVectors,
    dotProduct, hc, hs, jsDir1, VirtualImage.mk.injEq, Point.mk.injEq,
    show pmM1.position.x = -200 from rfl, show pmM1.position.y = 0 from rfl]
  refine ⟨⟨by ring, by ring⟩, ?_, ?_, ?_, ?_⟩ <;> trivial

/-- Reflection of a point object in the right mirror of the scenario:
`x` goes to `400 - x`. -/
theorem pmImgM2 (x y s d : ℝ) :
    calculateVirtualImagePosition ⟨⟨x, y⟩, s, d⟩ pmM2 =
      ⟨⟨400 - x, y⟩, s, jsDir2 d, 1, pmM2⟩ := by
  obtain ⟨hc, hs⟩ := pmM2_trig
  simp only [calculateVirtualImagePosition, getMirrorNormal, subtractVectors,
    dotProduct, hc, hs, jsDir2, VirtualImage.mk.injEq, Point.mk.injEq,
    show pmM2.position.x = 200 from rfl, show pmM2.position.y = 0 from rfl]
  refine ⟨⟨by ring, by ring⟩, ?_, ?_, ?_, ?_⟩ <;> trivial

theorem rnd_neg400 : round ((-400:ℝ)) = -400 := by
  rw [show ((-400:ℝ)) = (((-400:ℤ)):ℝ) by norm_num]
  exact round_intCast _

theorem rnd_400 : round ((400:ℝ)) = 400 := by
  rw [show ((400:ℝ)) = (((400:ℤ)):ℝ) by norm_num]
  exact round_intCast _

theorem rnd_neg800 : round ((-800:ℝ)) = -800 := by
  rw [show ((-800:ℝ)) = (((-800:ℤ)):ℝ) by norm_num]
  exact round_intCast _

theorem rnd_800 : round ((800:ℝ)) = 800 := by
  rw [show ((800:ℝ)) = (((800:ℤ)):ℝ) by norm_num]
  exact round_intCast _

theorem rnd_neg1200 : round ((-1200:ℝ)) = -1200 := by
  rw [show ((-1200:ℝ)) = (((-1200:ℤ)):ℝ) by norm_num]
  exact round_intCast _

theorem rnd_1200 : round ((1200:ℝ)) = 1200 := by
  rw [show ((1200:ℝ)) = (((1200:ℤ)):ℝ) by norm_num]
  exact round_intCast _

theorem pmLoop_succ (mirrors : List MirrorProps) (fuel reflection : ℕ)
    (keys : List (ℤ × ℤ × ℕ)) (results : List VirtualImage)
    (vObjs : List VirtObj) :
    pmLoop mirrors (fuel + 1) reflection keys results vObjs =
      pmLoop mirrors fuel (reflection + 1)
        (pmDepth mirrors reflection ⟨keys, results, []⟩ vObjs).keys
        (pmDepth mirrors reflection ⟨keys, results, []⟩ vObjs).results
        (pmDepth mirrors reflection ⟨keys, results, []⟩ vObjs).nextObjects :=
  rfl

/-- The seed work list of the C1 scenario (the object itself, depth 0). -/
def pmSeedList : List VirtObj :=
  [⟨⟨0, 0⟩, 0, 20, ⟨⟨0, 0⟩, 20, 0⟩, none, 0⟩]

/-- Dedup keys after depth 1 of the C1 scenario. -/
def pmK1 : List (ℤ × ℤ × ℕ) := [(-400, 0, 1), (400, 0, 1)]

/-- Accepted images after depth 1 of the C1 scenario. -/
def pmR1 : List VirtualImage :=
  [⟨⟨-400, 0⟩, 20, jsDir1 0, 1, pmM1⟩,
   ⟨⟨400, 0⟩, 20, jsDir2 0, 1, pmM2⟩]

/-- Depth-1 seeds for depth 2 of the C1 scenario. -/
def pmV1 : List VirtObj :=
  [⟨⟨-400, 0⟩, jsDir1 0, 20, ⟨⟨0, 0⟩, 20, 0⟩, some pmM1, 1⟩,
   ⟨⟨400, 0⟩, jsDir2 0, 20, ⟨⟨0, 0⟩, 20, 0⟩, some pmM2, 1⟩]

/-- Dedup keys after depth 2 of the C1 scenario. -/
def pmK2 : List (ℤ × ℤ × ℕ) :=
  [(-400, 0, 1), (400, 0, 1), (800, 0, 2), (-800, 0, 2)]

/-- Accepted images after depth 2 of the C1 scenario. -/
def pmR2 : List VirtualImage :=
  [⟨⟨-400, 0⟩, 20, jsDir1 0, 1, pmM1⟩,
   ⟨⟨400, 0⟩, 20, jsDir2 0, 1, pmM2⟩,
   ⟨⟨800, 0⟩, 20, jsDir2 (jsDir1 0), 2, pmM2⟩,
   ⟨⟨-800, 0⟩, 20, jsDir1 (jsDir2 0), 2, pmM1⟩]

/-- Depth-2 seeds for depth 3 of the C1 scenario. -/
def pmV2 : List VirtObj :=
  [⟨⟨800, 0⟩, jsDir2 (jsDir1 0), 20, ⟨⟨0, 0⟩, 20, 0⟩, some pmM2, 2⟩,
   ⟨⟨-800, 0⟩, jsDir1 (jsDir2 0), 20, ⟨⟨0, 0⟩, 20, 0⟩, some pmM1, 2⟩]

/-- Dedup keys after depth 3 of the C1 scenario. -/
def pmK3 : List (ℤ × ℤ × ℕ) :=
  [(-400, 0, 1), (400, 0, 1), (800, 0, 2), (-800, 0, 2),
   (-1200, 0, 3), (1200, 0, 3)]

/-- Accepted images after depth 3 of the C1 scenario. -/
def pmR3 : List VirtualImage :=
  [⟨⟨-400, 0⟩, 20, jsDir1 0, 1, pmM1⟩,
   ⟨⟨400, 0⟩, 20, jsDir2 0, 1, pmM2⟩,
   ⟨⟨800, 0⟩, 20, jsDir2 (jsDir1 0), 2, pmM2⟩,
   ⟨⟨-800, 0⟩, 20, jsDir1 (jsDir2 0), 2, pmM1⟩,
   ⟨⟨-1200, 0⟩, 20, jsDir1 (jsDir2 (jsDir1 0)), 3, pmM1⟩,
   ⟨⟨1200, 0⟩, 20, jsDir2 (jsDir1 (jsDir2 0)), 3, pmM2⟩]

/-- Depth-3 seeds (unused, the loop ends) of the C1 scenario. -/
def pmV3 : List VirtObj :=
  [⟨⟨-1200, 0⟩, jsDir1 (jsDir2 (jsDir1 0)), 20, ⟨⟨0, 0⟩, 20, 0⟩,
     some pmM1, 3⟩,
   ⟨⟨1200, 0⟩, jsDir2 (jsDir1 (jsDir2 0)), 20, ⟨⟨0, 0⟩, 20, 0⟩,
     some pmM2, 3⟩]

theorem pmDepth1 :
    pmDepth [pmM1, pmM2] 1 ⟨[], [], []⟩ pmSeedList = ⟨pmK1, pmR1, pmV1⟩ := by
  norm_num [pmDepth, pmStep, sameMirrorRef, List.foldl_cons, List.foldl_nil,
    pmSeedList, pmK1, pmR1, pmV1, pmImgM1, pmImgM2, rnd_neg400, rnd_400]

theorem pmDepth2 :
    pmDepth [pmM1, pmM2] 2 ⟨pmK1, pmR1, []⟩ pmV1 = ⟨pmK2, pmR2, pmV2⟩ := by
  norm_num [pmDepth, pmStep, sameMirrorRef, List.foldl_cons, List.foldl_nil,
    pmK1, pmR1, pmV1, pmK2, pmR2, pmV2, pmImgM1, pmImgM2, rnd_neg400,
    rnd_400, rnd_neg800, rnd_800,
    show pmM1.id = 1 from rfl, show pmM2.id = 2 from rfl]

theorem pmDepth3 :
    pmDepth [pmM1, pmM2] 3 ⟨pmK2, pmR2, []⟩ pmV2 = ⟨pmK3, pmR3, pmV3⟩ := by
  norm_num [pmDepth, pmStep, sameMirrorRef, List.foldl_cons, List.foldl_nil,
    pmK2, pmR2, pmV2, pmK3, pmR3, pmV3, pmImgM1, pmImgM2, rnd_neg400,
    rnd_400, rnd_neg800, rnd_800, rnd_neg1200, rnd_1200,
    show pmM1.id = 1 from rfl, show pmM2.id = 2 from rfl]

/-- C1: for the scene with two parallel mirrors 400 units apart (rotations
180 and 0), one object centered exactly between them, and
`maxReflections = 3`, `calculateParallelMirrorImages` returns exactly six
virtual images — two of each order 1, 2 and 3 — and, reading the
(position, order, source-id) projection, the source mirror alternates
between the two mirrors along each derivation chain: the order-2 image at
`x = 800` (source mirror 2) is derived from the order-1 image at
`x = -400` (source mirror 1), the order-2 image at `x = -800` (source 1)
from the order-1 image at `x = 400` (source 2), the order-3 image at
`x = -1200` (source 1) from the order-2 image at `x = 800` (source 2),
and the order-3 image at `x = 1200` (source 2) from the order-2 image at
`x = -800` (source 1). -/
theorem calculateParallelMirrorImages_scenario :
    ((calculateParallelMirrorImages pmObj [pmM1, pmM2] 3).map fun img =>
        (img.position.x, img.position.y, img.order, img.sourceMirror.id)) =
      [(-400, 0, 1, 1), (400, 0, 1, 2), (800, 0, 2, 2), (-800, 0, 2, 1),
       (-1200, 0, 3, 1), (1200, 0, 3, 2)] ∧
    (calculateParallelMirrorImages pmObj [pmM1, pmM2] 3).length = 6 ∧
    (calculateParallelMirrorImages pmObj [pmM1, pmM2] 3).countP
      (fun img => img.order == 1) = 2 ∧
    (calculateParallelMirrorImages pmObj [pmM1, pmM2] 3).countP
      (fun img => img.order == 2) = 2 ∧
    (calculateParallelMirrorImages pmObj [pmM1, pmM2] 3).countP
      (fun img => img.order == 3) = 2 := by
  have hres : calculateParallelMirrorImages pmObj [pmM1, pmM2] 3 =
      pmR3.map (fun result =>
        ⟨result.position, 20, result.direction, result.order,
         result.sourceMirror⟩) := by
    have hseed : calculateParallelMirrorImages pmObj [pmM1, pmM2] 3 =
        (pmLoop [pmM1, pmM2] 3 1 [] [] pmSeedList).map
          (fun result => ⟨result.position, 20, result.direction,
            result.order, result.sourceMirror⟩) := by
      simp [calculateParallelMirrorImages, pmObj, pmSeedList]
    rw [hseed]
    rw [show (3:ℕ) = 2 + 1 from rfl, pmLoop_succ, pmDepth1]
    rw [show pmLoop [pmM1, pmM2] 2 (1 + 1)
        (PMState.mk pmK1 pmR1 pmV1).keys (PMState.mk pmK1 pmR1 pmV1).results
        (PMState.mk pmK1 pmR1 pmV1).nextObjects =
        pmLoop [pmM1, pmM2] (1 + 1) 2 pmK1 pmR1 pmV1 from rfl]
    rw [pmLoop_succ, pmDepth2]
    rw [show pmLoop [pmM1, pmM2] 1 (2 + 1)
        (PMState.mk pmK2 pmR2 pmV2).keys (PMState.mk pmK2 pmR2 pmV2).results
        (PMState.mk pmK2 pmR2 pmV2).nextObjects =
        pmLoop [pmM1, pmM2] (0 + 1) 3 pmK2 pmR2 pmV2 from rfl]
    rw [pmLoop_succ, pmDepth3]
    rw [show pmLoop [pmM1, pmM2] 0 (3 + 1)
        (PMState.mk pmK3 pmR3 pmV3).keys (PMState.mk pmK3 pmR3 pmV3).results
        (PMState.mk pmK3 pmR3 pmV3).nextObjects = pmR3 from rfl]
  rw [hres]
  refine ⟨?_, ?_, ?_, ?_, ?_⟩ <;>
    simp [pmR3, show pmM1.id = 1 from rfl, show pmM2.id = 2 from rfl]

/-! ### C2: counting the virtual mirrors -/

theorem setVirtualOrder_order (m : MirrorProps) (k : ℕ) :
    (setVirtualOrder m k).order = some k := rfl

theorem setVirtualOrder_isVirtual (m : MirrorProps) (k : ℕ) :
    (setVirtualOrder m k).isVirtual = true := rfl

theorem setVirtualOrder_source (m : MirrorProps) (k : ℕ) :
    (setVirtualOrder m k).sourceMirror = m.sourceMirror := rfl

theorem calculateVirtualMirror_source (s r : MirrorProps) :
    (calculateVirtualMirror s r).sourceMirror = some r.id := rfl

theorem length_filterMap_if_all {α β : Type} {p : α → Prop}
    [DecidablePred p] {f : α → β} {l : List α} (h : ∀ a ∈ l, p a) :
    (l.filterMap fun a => if p a then some (f a) else none).length =
      l.length := by
  induction l with
  | nil => rfl
  | cons a t ih =>
    have hpa : p a := h a (List.mem_cons_self a t)
    simp only [List.filterMap_cons, if_pos hpa, List.length_cons]
    rw [ih fun x hx => h x (List.mem_cons_of_mem a hx)]

theorem length_filterMap_ne_key {α β : Type} (k : α → ℕ) (f : α → β) :
    ∀ {l : List α} {i : ℕ}, (l.map k).Nodup → i ∈ l.map k →
      (l.filterMap fun a => if i ≠ k a then some (f a) else none).length =
        l.length - 1 := by
  intro l
  induction l with
  | nil =>
    intro i _ hi
    simp at hi
  | cons a t ih =>
    intro i hnd hi
    simp only [List.map_cons, List.nodup_cons] at hnd
    simp only [List.map_cons, List.mem_cons] at hi
    rcases hi with hi | hi
    · subst hi
      have hno : ¬(k a ≠ k a) := by simp
      simp only [List.filterMap_cons, if_neg hno]
      have hall : ∀ x ∈ t, k a ≠ k x := by
        intro x hx hcon
        exact hnd.1 (hcon ▸ List.mem_map_of_mem k hx)
      rw [length_filterMap_if_all hall]
      simp
    · have hne : i ≠ k a := fun hcon => hnd.1 (hcon ▸ hi)
      have hlen : 0 < t.length := by
        rcases t with - | ⟨b, t2⟩
        · simp at hi
        · simp
      simp only [List.filterMap_cons, if_pos hne, List.length_cons]
      rw [ih hnd.2 hi]
      omega

theorem length_flatMap_const {α β : Type} {l : List α} {f : α → List β}
    {c : ℕ} (h : ∀ a ∈ l, (f a).length = c) :
    (l.flatMap f).length = l.length * c := by
  induction l with
  | nil => simp
  | cons a t ih =>
    rw [List.flatMap_cons, List.length_append, h a (List.mem_cons_self a t),
      ih fun x hx => h x (List.mem_cons_of_mem a hx), List.length_cons]
    ring

theorem firstOrder_length (mirrors : List MirrorProps) :
    (firstOrderVirtualMirrors mirrors).length =
      mirrors.length * (mirrors.length - 1) := by
  unfold firstOrderVirtualMirrors
  rw [length_flatMap_const (c := mirrors.length - 1) ?_, List.enum_length]
  intro p hp
  have hmem : p.1 ∈ mirrors.enum.map Prod.fst := List.mem_map_of_mem _ hp
  have hnd : (mirrors.enum.map Prod.fst).Nodup := by
    rw [List.enum_map_fst]
    exact List.nodup_range _
  have := length_filterMap_ne_key Prod.fst
    (fun q => setVirtualOrder (calculateVirtualMirror p.2 q.2) 1) hnd hmem
  rw [List.enum_length] at this
  exact this

theorem firstOrder_elim {mirrors : List MirrorProps} {m : MirrorProps}
    (hm : m ∈ firstOrderVirtualMirrors mirrors) :
    ∃ (i j : ℕ) (hi : i < mirrors.length) (hj : j < mirrors.length),
      i ≠ j ∧
      m = setVirtualOrder
        (calculateVirtualMirror (mirrors.get ⟨i, hi⟩)
          (mirrors.get ⟨j, hj⟩)) 1 := by
  unfold firstOrderVirtualMirrors at hm
  rw [List.mem_flatMap] at hm
  obtain ⟨p, hp, hm⟩ := hm
  rw [List.mem_filterMap] at hm
  obtain ⟨q, hq, hite⟩ := hm
  split_ifs at hite with hij
  · rw [List.mem_enum_iff_getElem?, List.getElem?_eq_some_iff] at hp hq
    obtain ⟨hpl, hpe⟩ := hp
    obtain ⟨hql, hqe⟩ := hq
    refine ⟨p.1, q.1, hpl, hql, hij, ?_⟩
    have hmeq : m = setVirtualOrder (calculateVirtualMirror p.2 q.2) 1 :=
      (Option.some_inj.mp hite).symm
    rw [hmeq, List.get_eq_getElem, List.get_eq_getElem, hpe, hqe]

theorem firstOrder_fields {mirrors : List MirrorProps} {m : MirrorProps}
    (hm : m ∈ firstOrderVirtualMirrors mirrors) :
    m.order = some 1 ∧ m.isVirtual = true ∧
      ∃ q ∈ mirrors, m.sourceMirror = some q.id := by
  obtain ⟨i, j, hi, hj, hij, hmeq⟩ := firstOrder_elim hm
  subst hmeq
  refine ⟨rfl, rfl, mirrors.get ⟨j, hj⟩, List.get_mem mirrors j hj, ?_⟩
  rw [setVirtualOrder_source, calculateVirtualMirror_source]

theorem secondOrder_elim {mirrors : List MirrorProps} {m : MirrorProps}
    (hm : m ∈ secondOrderVirtualMirrors mirrors) :
    ∃ v ∈ firstOrderVirtualMirrors mirrors, ∃ q ∈ mirrors,
      v.sourceMirror ≠ some q.id ∧
      m = setVirtualOrder (calculateVirtualMirror v q) 2 := by
  unfold secondOrderVirtualMirrors at hm
  rw [List.mem_flatMap] at hm
  obtain ⟨v, hv, hm⟩ := hm
  rw [List.mem_filterMap] at hm
  obtain ⟨q, hq, hite⟩ := hm
  split_ifs at hite with hne
  · exact ⟨v, hv, q, hq, hne, (Option.some_inj.mp hite).symm⟩

theorem secondOrder_length {mirrors : List MirrorProps}
    (hnd : (mirrors.map MirrorProps.id).Nodup) :
    (secondOrderVirtualMirrors mirrors).length =
      mirrors.length * (mirrors.length - 1) * (mirrors.length - 1) := by
  unfold secondOrderVirtualMirrors
  rw [length_flatMap_const (c := mirrors.length - 1) ?_, firstOrder_length]
  intro v hv
  obtain ⟨-, -, q, hq, hsrc⟩ := firstOrder_fields hv
  have hfun : (fun m : MirrorProps =>
      if v.sourceMirror ≠ some m.id then
        some (setVirtualOrder (calculateVirtualMirror v m) 2)
      else none) =
      fun m : MirrorProps =>
        if q.id ≠ MirrorProps.id m then
          some (setVirtualOrder (calculateVirtualMirror v m) 2)
        else none := by
    funext m
    rw [hsrc]
    by_cases h : q.id = m.id
    · rw [if_neg (by simp [h]), if_neg (by simp [h])]
    · rw [if_pos (by simp [h]), if_pos (by simp [h])]
  rw [hfun]
  exact length_filterMap_ne_key MirrorProps.id _ hnd
    (List.mem_map_of_mem _ hq)

/-- C2: for a list of at least two pairwise-distinct mirrors (distinct
ids), `calculateVirtualMirrors` returns exactly `n * (n - 1)` first-order
virtual mirrors — one per ordered index pair `(i, j)`, `i ≠ j`, obtained
by reflecting mirror `i` across mirror `j`, tagged virtual with
`sourceMirrorRef = mirror j` — plus exactly `n * (n - 1) * (n - 1)`
second-order virtual mirrors — one per first-order virtual mirror `v` and
real mirror `q` with `q` not the creator of `v` — and nothing of any
higher order (every element has order 1 or 2, and the total length is the
sum of the two counts); for `n ≤ 1` it returns the empty list. -/
theorem calculateVirtualMirrors_spec (mirrors : List MirrorProps)
    (hnd : (mirrors.map MirrorProps.id).Nodup) :
    (mirrors.length ≤ 1 → calculateVirtualMirrors mirrors = []) ∧
    (2 ≤ mirrors.length →
      (calculateVirtualMirrors mirrors).countP
          (fun m => m.order == some 1) =
        mirrors.length * (mirrors.length - 1) ∧
      (calculateVirtualMirrors mirrors).countP
          (fun m => m.order == some 2) =
        mirrors.length * (mirrors.length - 1) * (mirrors.length - 1) ∧
      (calculateVirtualMirrors mirrors).length =
        mirrors.length * (mirrors.length - 1) +
          mirrors.length * (mirrors.length - 1) * (mirrors.length - 1) ∧
      (∀ m ∈ calculateVirtualMirrors mirrors, m.isVirtual = true ∧
        (m.order = some 1 ∨ m.order = some 2)) ∧
      (∀ m ∈ calculateVirtualMirrors mirrors, m.order = some 1 →
        ∃ (i j : ℕ) (hi : i < mirrors.length) (hj : j < mirrors.length),
          i ≠ j ∧
          m = setVirtualOrder
            (calculateVirtualMirror (mirrors.get ⟨i, hi⟩)
              (mirrors.get ⟨j, hj⟩)) 1 ∧
          m.sourceMirror = some (mirrors.get ⟨j, hj⟩).id) ∧
      (∀ m ∈ calculateVirtualMirrors mirrors, m.order = some 2 →
        ∃ v ∈ calculateVirtualMirrors mirrors, v.order = some 1 ∧
          ∃ q ∈ mirrors, v.sourceMirror ≠ some q.id ∧
            m = setVirtualOrder (calculateVirtualMirror v q) 2)) := by
  constructor
  · intro hle
    rw [calculateVirtualMirrors, if_pos hle]
  · intro h2
    have hres : calculateVirtualMirrors mirrors =
        firstOrderVirtualMirrors mirrors ++
          secondOrderVirtualMirrors mirrors := by
      rw [calculateVirtualMirrors, if_neg (by omega)]
    have hfo1 : (firstOrderVirtualMirrors mirrors).countP
        (fun m => m.order == some 1) =
        (firstOrderVirtualMirrors mirrors).length := by
      rw [List.countP_eq_length]
      intro v hv
      obtain ⟨ho, -, -⟩ := firstOrder_fields hv
      simp [ho]
    have hfo2 : (firstOrderVirtualMirrors mirrors).countP
        (fun m => m.order == some 2) = 0 := by
      rw [List.countP_eq_zero]
      intro v hv
      obtain ⟨ho, -, -⟩ := firstOrder_fields hv
      simp [ho]
    have hso1 : (secondOrderVirtualMirrors mirrors).countP
        (fun m => m.order == some 1) = 0 := by
      rw [List.countP_eq_zero]
      intro v hv
      obtain ⟨v2, hv2, q2, hq2, hne2, hveq⟩ := secondOrder_elim hv
      simp [hveq, setVirtualOrder_order]
    have hso2 : (secondOrderVirtualMirrors mirrors).countP
        (fun m => m.order == some 2) =
        (secondOrderVirtualMirrors mirrors).length := by
      rw [List.countP_eq_length]
      intro v hv
      obtain ⟨v2, hv2, q2, hq2, hne2, hveq⟩ := secondOrder_elim hv
      simp [hveq, setVirtualOrder_order]
    refine ⟨?_, ?_, ?_, ?_, ?_, ?_⟩
    · rw [hres, List.countP_append, hfo1, hso1, firstOrder_length]
      simp
    · rw [hres, List.countP_append, hfo2, hso2, secondOrder_length hnd]
      simp
    · rw [hres, List.length_append, firstOrder_length,
        secondOrder_length hnd]
    · intro m hm
      rw [hres, List.mem_append] at hm
      rcases hm with hm | hm
      · obtain ⟨ho, hvirt, -⟩ := firstOrder_fields hm
        exact ⟨hvirt, Or.inl ho⟩
      · obtain ⟨v2, hv2, q2, hq2, hne2, hmeq⟩ := secondOrder_elim hm
        subst hmeq
        exact ⟨rfl, Or.inr rfl⟩
    · intro m hm ho
      rw [hres, List.mem_append] at hm
      rcases hm with hm | hm
      · obtain ⟨i, j, hi, hj, hij, hmeq⟩ := firstOrder_elim hm
        refine ⟨i, j, hi, hj, hij, hmeq, ?_⟩
        rw [hmeq, setVirtualOrder_source, calculateVirtualMirror_source]
      · obtain ⟨v2, hv2, q2, hq2, hne2, hmeq⟩ := secondOrder_elim hm
        rw [hmeq, setVirtualOrder_order] at ho
        exact absurd (Option.some_inj.mp ho) (by norm_num)
    · intro m hm ho
      rw [hres, List.mem_append] at hm
      rcases hm with hm | hm
      · obtain ⟨hmo, -, -⟩ := firstOrder_fields hm
        rw [hmo] at ho
        exact absurd (Option.some_inj.mp ho) (by norm_num)
      · obtain ⟨v, hv, q, hq, hne, hmeq⟩ := secondOrder_elim hm
        obtain ⟨hvo, -, -⟩ := firstOrder_fields hv
        exact ⟨v, by rw [hres]; exact List.mem_append_left _ hv, hvo,
          q, hq, hne, hmeq⟩

/-- Witness for C2: two concrete mirrors give two first-order virtual
mirrors, two second-order virtual mirrors, and four virtual mirrors in
total. -/
theorem calculateVirtualMirrors_spec_witness :
    (calculateVirtualMirrors [parMirrorA, parMirrorB]).countP
        (fun m => m.order == some 1) = 2 ∧
      (calculateVirtualMirrors [parMirrorA, parMirrorB]).countP
        (fun m => m.order == some 2) = 2 ∧
      (calculateVirtualMirrors [parMirrorA, parMirrorB]).length = 4 := by
  obtain ⟨-, h⟩ := calculateVirtualMirrors_spec [parMirrorA, parMirrorB]
    (by simp [parMirrorA, parMirrorB])
  obtain ⟨h1, h2, h3, -⟩ := h (by simp)
  refine ⟨by simpa using h1, by simpa using h2, by simpa using h3⟩

end

end Reflections
